import Mathlib

/-!
Verification of the milkdown table-block gesture translator
(packages/components/src/table-block/view/operation.ts) and the floating
block provider (block-provider.ts).  Each handler of `useOperation` is
embedded as a pure function from an explicit state to the ordered list of
Command Bus calls it issues plus the updated UI flags; the provider is
embedded as a state machine over its fields.
-/

namespace TableOp

/-- Alignment directions accepted by the set-align gesture. -/
inductive Align
  | left
  | center
  | right
deriving DecidableEq, Repr

/-- A Command Bus call, as issued through `commands.call` in operation.ts:
select-row / select-col carry the position argument `pos` and the index,
the insert and delete commands carry no arguments, set-align carries the
direction. -/
inductive Command
  | selectRow (pos : Int) (index : Int)
  | selectCol (pos : Int) (index : Int)
  | addRowAfter
  | addRowBefore
  | addColAfter
  | addColBefore
  | deleteSelectedCells
  | setAlign (dir : Align)
deriving DecidableEq, Repr

/-- The state read and written by the handlers of `useOperation`:
`hasCtx` is whether the optional `ctx` argument was supplied; `xLineHandle`
holds the dataset.show flag of the x-line handle element when the ref is
populated; `contentRows` is the number of tr elements of the content
wrapper and `contentCols` the number of children of its first tr;
`hoverIndex` and `lineHoverIndex` are the two (rowIndex, colIndex) pairs,
-1 meaning nothing hovered; `editable` is the editor view editable flag;
`getPos` is the result of the optional `getPos` callback; the two
buttonGroup fields hold the dataset.show flag of the .button-group element
under rowHandleRef / colHandleRef when present. -/
structure OpState where
  hasCtx : Bool
  xLineHandle : Option Bool
  contentRows : Nat
  contentCols : Nat
  hoverIndex : Int × Int
  lineHoverIndex : Int × Int
  editable : Bool
  getPos : Option Int
  rowButtonGroup : Option Bool
  colButtonGroup : Option Bool
deriving DecidableEq, Repr

/-- `onAddRow` of operation.ts: guard on ctx, on the x-line handle ref, on
`rowIndex < 0` and on editability; then issue select-row and insert-before
or insert-after depending on whether the hovered line index equals the row
count, re-select the hovered index, and set the x-line handle dataset.show
flag to false. -/
def onAddRow (s : OpState) : List Command × OpState :=
  if !s.hasCtx then ([], s) else
  match s.xLineHandle with
  | none => ([], s)
  | some _ =>
    let rowIndex := s.lineHoverIndex.1
    if rowIndex < 0 then ([], s)
    else if !s.editable then ([], s)
    else
      let pos := s.getPos.getD 0 + 1
      let head :=
        if (s.contentRows : Int) = rowIndex then
          [Command.selectRow pos (rowIndex - 1), Command.addRowAfter]
        else
          [Command.selectRow pos rowIndex, Command.addRowBefore]
      (head ++ [Command.selectRow pos rowIndex],
        { s with xLineHandle := some false })

/-- `onAddCol` of operation.ts: same guards and the same branching as
`onAddRow`, with column semantics; it does not write the x-line handle
dataset.show flag at the end. -/
def onAddCol (s : OpState) : List Command × OpState :=
  if !s.hasCtx then ([], s) else
  match s.xLineHandle with
  | none => ([], s)
  | some _ =>
    let colIndex := s.lineHoverIndex.2
    if colIndex < 0 then ([], s)
    else if !s.editable then ([], s)
    else
      let pos := s.getPos.getD 0 + 1
      let head :=
        if (s.contentCols : Int) = colIndex then
          [Command.selectCol pos (colIndex - 1), Command.addColAfter]
        else
          [Command.selectCol pos colIndex, Command.addColBefore]
      (head ++ [Command.selectCol pos colIndex], s)

/-- `selectCol` of operation.ts: guard only on ctx; issue one select-col
command at the hovered column index, then toggle the dataset.show flag of
the column button group whenever that element is present. -/
def selectCol (s : OpState) : List Command × OpState :=
  if !s.hasCtx then ([], s) else
  let colIndex := s.hoverIndex.2
  let pos := s.getPos.getD 0 + 1
  let cmds := [Command.selectCol pos colIndex]
  match s.colButtonGroup with
  | none => (cmds, s)
  | some b => (cmds, { s with colButtonGroup := some (!b) })

/-- `selectRow` of operation.ts: guard only on ctx; issue one select-row
command at the hovered row index, then toggle the dataset.show flag of the
row button group when that element is present and the row index is
positive. -/
def selectRow (s : OpState) : List Command × OpState :=
  if !s.hasCtx then ([], s) else
  let rowIndex := s.hoverIndex.1
  let pos := s.getPos.getD 0 + 1
  let cmds := [Command.selectRow pos rowIndex]
  match s.rowButtonGroup with
  | none => (cmds, s)
  | some b =>
    if rowIndex > 0 then (cmds, { s with rowButtonGroup := some (!b) })
    else (cmds, s)

/-- Observable effect of a pointer-event handler: the commands issued,
whether preventDefault/stopPropagation were invoked on the event, and
whether a focus restoration was scheduled on the next animation frame. -/
structure GestureEffect where
  commands : List Command
  preventedDefault : Bool
  focusScheduled : Bool
deriving DecidableEq, Repr

/-- `deleteSelected` of operation.ts: guard on ctx and editability, then
suppress the default event handling, issue delete-selected-cells, and
schedule a focus restoration. -/
def deleteSelected (s : OpState) : GestureEffect :=
  if !s.hasCtx then ⟨[], false, false⟩
  else if !s.editable then ⟨[], false, false⟩
  else ⟨[Command.deleteSelectedCells], true, true⟩

/-- `onAlign` of operation.ts: guard on ctx and editability, then suppress
the default event handling, issue set-align with the requested direction,
and schedule a focus restoration. -/
def onAlign (direction : Align) (s : OpState) : GestureEffect :=
  if !s.hasCtx then ⟨[], false, false⟩
  else if !s.editable then ⟨[], false, false⟩
  else ⟨[Command.setAlign direction], true, true⟩

end TableOp

namespace Block

/-- A layout rule handed to the Position Solver: the built-in flip rule,
the built-in offset rule, or the n-th caller-supplied extra rule from the
`middleware` option of the provider. -/
inductive Rule
  | flip
  | offset
  | extra (n : Nat)
deriving DecidableEq, Repr

/-- A preferred side for the floating element. -/
inductive Placement
  | left
  | right
  | top
  | bottom
deriving DecidableEq, Repr

/-- The `floatingUIOptions` override object: an incomplete solver
configuration spread over the computed one, so a field that is present
replaces the computed value. Only the fields the claims are about are
modelled. -/
structure FloatingUIOptions where
  placement : Option Placement
  middleware : Option (List Rule)
deriving DecidableEq, Repr

/-- The configuration pieces of a BlockProvider that determine the
argument object of `computePosition` in `show`: whether `getOffset` was
supplied, the result of `getPlacement` when supplied, the caller-supplied
extra middleware list, and the `floatingUIOptions` overrides. -/
structure ShowOptions where
  hasGetOffset : Bool
  getPlacement : Option Placement
  extraMiddleware : List Rule
  floatingUIOptions : FloatingUIOptions
deriving DecidableEq, Repr

/-- The internal middleware list built by `show`: flip always, then offset
exactly when `getOffset` was supplied. -/
def builtMiddleware (o : ShowOptions) : List Rule :=
  let middleware := [Rule.flip]
  let middleware :=
    if o.hasGetOffset then middleware ++ [Rule.offset] else middleware
  middleware

/-- The (placement, middleware) pair of the object passed to
`computePosition`: the computed fields, with the `floatingUIOptions`
spread last so its fields win when present. -/
def solverConfig (o : ShowOptions) : Placement × List Rule :=
  let placement := o.getPlacement.getD Placement.left
  let middleware := builtMiddleware o ++ o.extraMiddleware
  (o.floatingUIOptions.placement.getD placement,
    o.floatingUIOptions.middleware.getD middleware)

/-- The mutable state of one BlockProvider instance together with the
parts of the document it owns: the `initialized` flag, whether the
floating element is attached to a root container, whether the service
callback slot is bound to this provider, whether the gesture listeners
were added, the draggable flag, the dataset.show visibility flag, the
left/top position style, and whether the `service` field was assigned. -/
structure ProviderState where
  initialized : Bool
  attached : Bool
  bound : Bool
  eventAdded : Bool
  draggable : Bool
  datasetShow : Bool
  stylePos : Option (Int × Int)
  hasService : Bool
deriving DecidableEq, Repr

/-- The state right after the constructor ran: nothing initialized, and
the constructor calls `hide`, so the visibility flag is false. -/
def initialState : ProviderState :=
  { initialized := false
    attached := false
    bound := false
    eventAdded := false
    draggable := false
    datasetShow := false
    stylePos := none
    hasService := false }

/-- Modelled from the spec: `BlockService.bind` is not under src; per the
registry binding protocol it sets the single internal callback slot to
this provider (last-write-wins). -/
def bindService (s : ProviderState) : ProviderState :=
  { s with bound := true }

/-- Modelled from the spec: `BlockService.unBind` is not under src; per
the registry binding protocol and the idempotent-teardown discipline it
clears the single internal callback slot. -/
def unBindService (s : ProviderState) : ProviderState :=
  { s with bound := false }

/-- Modelled from the spec: `BlockService.addEvent` is not under src; it
attaches the gesture listeners to the floating element. -/
def addEventService (s : ProviderState) : ProviderState :=
  { s with eventAdded := true }

/-- Modelled from the spec: `BlockService.removeEvent` is not under src;
it removes the gesture listeners from the floating element. -/
def removeEventService (s : ProviderState) : ProviderState :=
  { s with eventAdded := false }

/-- The body of the private `init` method when it succeeds: append the
element to the root, bind the service callback, store the service, add the
gesture listeners, and set draggable. -/
def initBody (s : ProviderState) : ProviderState :=
  { addEventService
      (bindService { s with attached := true, hasService := true }) with
    draggable := true }

/-- The body of one `update` call, that is the callback it schedules on
the next animation frame: when not yet initialized, attempt `init` and set
the `initialized` flag on success; a thrown failure is caught and
discarded, leaving the state unchanged. The parameter `ok` abstracts
whether this attempt of `init` succeeds (for example whether the editor
view is mounted). -/
def update (ok : Bool) (s : ProviderState) : ProviderState :=
  if s.initialized then s
  else if ok then { initBody s with initialized := true }
  else s

/-- Run a sequence of `update` calls, each with its own success
environment, counting how many of them performed a successful
initialization. -/
def updateTrace : List Bool → ProviderState → ProviderState × Nat
  | [], s => (s, 0)
  | ok :: rest, s =>
    let n := if !s.initialized && ok then 1 else 0
    let r := updateTrace rest (update ok s)
    (r.1, n + r.2)

/-- `destroy` of the provider: optional-chained `unBind` and `removeEvent`
on the service when it was ever assigned, then detach the element. The
`initialized` and `hasService` fields are not reset. -/
def destroy (s : ProviderState) : ProviderState :=
  let s1 := if s.hasService then unBindService s else s
  let s2 := if s1.hasService then removeEventService s1 else s1
  { s2 with attached := false }

/-- `hide` of the provider: synchronously set the dataset.show flag to
false; nothing else. -/
def hide (s : ProviderState) : ProviderState :=
  { s with datasetShow := false }

/-- Outcome of the asynchronous `computePosition` call issued by `show`. -/
inductive SolverResult
  | ok (x y : Int)
  | err
deriving DecidableEq, Repr

/-- The completion handlers of the `computePosition` promise in `show`: on
success, write the left/top style and set the dataset.show flag to true;
on rejection, report the error to the diagnostic sink (the returned Nat
counts reports) and leave the state untouched. -/
def resolve (s : ProviderState) : SolverResult → ProviderState × Nat
  | SolverResult.ok x y =>
    ({ s with stylePos := some (x, y), datasetShow := true }, 0)
  | SolverResult.err => (s, 1)

/-- Observable outcome of one `show` call whose solver computation
completed with result `r`: the final state, the number of errors reported
to the diagnostic sink, and the number of solver calls issued (one: the
catch handler performs no retry). -/
structure ShowOutcome where
  state : ProviderState
  errorsReported : Nat
  solverCalls : Nat
deriving DecidableEq, Repr

/-- One `show` call followed by the completion of its solver computation:
the synchronous part of `show` issues exactly one `computePosition` call
and does not touch the state; the completion handler then runs. -/
def showWith (s : ProviderState) (r : SolverResult) : ShowOutcome :=
  let c := resolve s r
  { state := c.1, errorsReported := c.2, solverCalls := 1 }

end Block

/-- Concrete gesture state: a 3x3 grid, gridline hover on the trailing
edge of the rows and of the columns, editable, position callback giving
7. -/
def sAppend : TableOp.OpState :=
  { hasCtx := true
    xLineHandle := some true
    contentRows := 3
    contentCols := 3
    hoverIndex := (1, 1)
    lineHoverIndex := (3, 3)
    editable := true
    getPos := some 7
    rowButtonGroup := some false
    colButtonGroup := some false }

/-- Concrete gesture state: a 3x3 grid with an interior gridline hover. -/
def sInterior : TableOp.OpState :=
  { sAppend with lineHoverIndex := (1, 1) }

/-- Concrete gesture state on a non-editable surface, with the sentinel
hover index -1 for the cell-level hover. -/
def sNonEditable : TableOp.OpState :=
  { sAppend with editable := false, hoverIndex := (-1, -1) }

/-- Concrete gesture state for row selection: cell hover on row 2, row
button group present and hidden. -/
def sSelRow : TableOp.OpState :=
  { sAppend with hoverIndex := (2, 1) }

/-- Concrete provider configuration that overrides the middleware list
through floatingUIOptions. -/
def oOverride : Block.ShowOptions :=
  { hasGetOffset := false
    getPlacement := none
    extraMiddleware := []
    floatingUIOptions := { placement := none, middleware := some [Block.Rule.extra 0] } }

/-- Concrete provider configuration with getOffset supplied, two extra
rules, and no floatingUIOptions overrides. -/
def oPlain : Block.ShowOptions :=
  { hasGetOffset := true
    getPlacement := some Block.Placement.top
    extraMiddleware := [Block.Rule.extra 0, Block.Rule.extra 1]
    floatingUIOptions := { placement := none, middleware := none } }


/-- Claim C1: for an insert-row gesture with preconditions met (ctx
present, x-line handle present, editable, hover row index in
[0, rowCount]) and document position p, exactly three commands are issued
in order: select-row(p+1, rowIndex-1) then insert-row-after when rowIndex
equals the row count, otherwise select-row(p+1, rowIndex) then
insert-row-before, concluding with select-row(p+1, rowIndex) in both
cases. -/
theorem onAddRow_command_sequence (s : TableOp.OpState) (p : Int)
    (hc : s.hasCtx = true) (hx : s.xLineHandle.isSome = true)
    (he : s.editable = true) (hp : s.getPos = some p)
    (h0 : 0 ≤ s.lineHoverIndex.1)
    (hub : s.lineHoverIndex.1 ≤ (s.contentRows : Int)) :
    (TableOp.onAddRow s).1 =
      if (s.contentRows : Int) = s.lineHoverIndex.1 then
        [TableOp.Command.selectRow (p + 1) (s.lineHoverIndex.1 - 1),
         TableOp.Command.addRowAfter,
         TableOp.Command.selectRow (p + 1) s.lineHoverIndex.1]
      else
        [TableOp.Command.selectRow (p + 1) s.lineHoverIndex.1,
         TableOp.Command.addRowBefore,
         TableOp.Command.selectRow (p + 1) s.lineHoverIndex.1] := by
  obtain ⟨x, hxs⟩ := Option.isSome_iff_exists.mp hx
  rw [TableOp.onAddRow, hc, hxs]
  simp only [Bool.not_true, Bool.false_eq_true, if_false]
  rw [if_neg (not_lt.mpr h0), he]
  simp only [Bool.not_true, Bool.false_eq_true, if_false, hp, Option.getD_some]
  split <;> simp

theorem onAddRow_command_sequence_witness :
    (TableOp.onAddRow sAppend).1 =
      [TableOp.Command.selectRow 8 2, TableOp.Command.addRowAfter,
       TableOp.Command.selectRow 8 3] := by
  have h := onAddRow_command_sequence sAppend 7 rfl rfl rfl rfl
    (by decide) (by decide)
  simpa using h

/-- Claim C2: on a non-editable surface none of the four document-mutating
gesture handlers (insert row, insert column, delete selection, set
alignment) issues any Command Bus call. -/
theorem nonEditable_no_commands (s : TableOp.OpState) (d : TableOp.Align)
    (h : s.editable = false) :
    (TableOp.onAddRow s).1 = [] ∧ (TableOp.onAddCol s).1 = [] ∧
    (TableOp.deleteSelected s).commands = [] ∧
    (TableOp.onAlign d s).commands = [] := by
  refine ⟨?_, ?_, ?_, ?_⟩ <;>
    cases hc : s.hasCtx <;>
      cases hx : s.xLineHandle <;>
        simp [TableOp.onAddRow, TableOp.onAddCol, TableOp.deleteSelected,
          TableOp.onAlign, hc, hx, h]

theorem nonEditable_no_commands_witness :
    (TableOp.onAddRow sNonEditable).1 = [] ∧
    (TableOp.onAddCol sNonEditable).1 = [] ∧
    (TableOp.deleteSelected sNonEditable).commands = [] ∧
    (TableOp.onAlign TableOp.Align.center sNonEditable).commands = [] :=
  nonEditable_no_commands sNonEditable TableOp.Align.center rfl

/-- Claim C3: under the same preconditions, insert-column issues the same
three-command pattern as insert-row with column semantics (select
colIndex-1 then insert-after when colIndex equals the column count, else
select colIndex then insert-before, then re-select colIndex), and it
leaves the x-line handle visibility flag unchanged, while insert-row sets
that flag to hidden. -/
theorem onAddCol_same_algorithm_no_hide (s : TableOp.OpState) (p : Int)
    (hc : s.hasCtx = true) (hx : s.xLineHandle.isSome = true)
    (he : s.editable = true) (hp : s.getPos = some p)
    (hcol : 0 ≤ s.lineHoverIndex.2) (hrow : 0 ≤ s.lineHoverIndex.1) :
    ((TableOp.onAddCol s).1 =
      if (s.contentCols : Int) = s.lineHoverIndex.2 then
        [TableOp.Command.selectCol (p + 1) (s.lineHoverIndex.2 - 1),
         TableOp.Command.addColAfter,
         TableOp.Command.selectCol (p + 1) s.lineHoverIndex.2]
      else
        [TableOp.Command.selectCol (p + 1) s.lineHoverIndex.2,
         TableOp.Command.addColBefore,
         TableOp.Command.selectCol (p + 1) s.lineHoverIndex.2]) ∧
    (TableOp.onAddCol s).2.xLineHandle = s.xLineHandle ∧
    (TableOp.onAddRow s).2.xLineHandle = some false := by
  obtain ⟨x, hxs⟩ := Option.isSome_iff_exists.mp hx
  refine ⟨?_, ?_, ?_⟩
  · rw [TableOp.onAddCol, hc, hxs]
    simp only [Bool.not_true, Bool.false_eq_true, if_false]
    rw [if_neg (not_lt.mpr hcol), he]
    simp only [Bool.not_true, Bool.false_eq_true, if_false, hp, Option.getD_some]
    split <;> simp
  · rw [TableOp.onAddCol, hc, hxs]
    simp only [Bool.not_true, Bool.false_eq_true, if_false]
    rw [if_neg (not_lt.mpr hcol), he]
    simp only [Bool.not_true, Bool.false_eq_true, if_false]
    exact hxs
  · rw [TableOp.onAddRow, hc, hxs]
    simp only [Bool.not_true, Bool.false_eq_true, if_false]
    rw [if_neg (not_lt.mpr hrow), he]
    simp only [Bool.not_true, Bool.false_eq_true, if_false]

theorem onAddCol_same_algorithm_no_hide_witness :
    ((TableOp.onAddCol sAppend).1 =
      [TableOp.Command.selectCol 8 2, TableOp.Command.addColAfter,
       TableOp.Command.selectCol 8 3]) ∧
    (TableOp.onAddCol sAppend).2.xLineHandle = some true ∧
    (TableOp.onAddRow sAppend).2.xLineHandle = some false := by
  have h := onAddCol_same_algorithm_no_hide sAppend 7 rfl rfl rfl rfl
    (by decide) (by decide)
  simpa using h

/-- Claim C5: a select-row gesture with ctx present and the row button
group present issues exactly one select-row command at the hovered row
index, and the button group visibility flag is toggled if and only if the
row index is positive; selecting row 0 leaves the flag unchanged. -/
theorem selectRow_toggle_iff_positive (s : TableOp.OpState) (b : Bool)
    (hc : s.hasCtx = true) (hg : s.rowButtonGroup = some b) :
    (TableOp.selectRow s).1 =
      [TableOp.Command.selectRow (s.getPos.getD 0 + 1) s.hoverIndex.1] ∧
    ((0 < s.hoverIndex.1 →
      (TableOp.selectRow s).2.rowButtonGroup = some (!b)) ∧
     (¬ 0 < s.hoverIndex.1 →
      (TableOp.selectRow s).2.rowButtonGroup = some b)) ∧
    ((TableOp.selectRow s).2.rowButtonGroup = some (!b) ↔
      0 < s.hoverIndex.1) := by
  refine ⟨?_, ⟨?_, ?_⟩, ?_⟩
  · rw [TableOp.selectRow, hc]
    simp only [Bool.not_true, Bool.false_eq_true, if_false, hg]
    split <;> rfl
  · intro hpos
    rw [TableOp.selectRow, hc]
    simp [hg, hpos]
  · intro hpos
    rw [TableOp.selectRow, hc]
    simp [hg, hpos]
  · rw [TableOp.selectRow, hc]
    by_cases hpos : 0 < s.hoverIndex.1 <;>
      simp [hg, hpos, Bool.eq_not_self]

theorem selectRow_toggle_iff_positive_witness :
    (TableOp.selectRow sSelRow).1 =
      [TableOp.Command.selectRow 8 2] ∧
    ((TableOp.selectRow sSelRow).2.rowButtonGroup = some true ↔
      (0 : Int) < 2) := by
  have h := selectRow_toggle_iff_positive sSelRow false rfl rfl
  exact ⟨by simpa [sSelRow, sAppend] using h.1,
    by simpa [sSelRow, sAppend] using h.2.2⟩

/-- Claim C10: whenever ctx is present, selectRow and selectCol issue
their single select command at the hovered index unconditionally — the
statement carries no editability or lower-bound hypothesis, so the command
is issued also on a non-editable surface and at the sentinel index -1. -/
theorem select_commands_unconditional (s : TableOp.OpState)
    (hc : s.hasCtx = true) :
    (TableOp.selectRow s).1 =
      [TableOp.Command.selectRow (s.getPos.getD 0 + 1) s.hoverIndex.1] ∧
    (TableOp.selectCol s).1 =
      [TableOp.Command.selectCol (s.getPos.getD 0 + 1) s.hoverIndex.2] := by
  constructor
  · rw [TableOp.selectRow, hc]
    simp only [Bool.not_true, Bool.false_eq_true, if_false]
    cases s.rowButtonGroup with
    | none => rfl
    | some b => by_cases hpos : s.hoverIndex.1 > 0 <;> simp [hpos]
  · rw [TableOp.selectCol, hc]
    simp only [Bool.not_true, Bool.false_eq_true, if_false]
    cases s.colButtonGroup with
    | none => rfl
    | some b => rfl

theorem select_commands_unconditional_witness :
    (TableOp.selectRow sNonEditable).1 =
      [TableOp.Command.selectRow 8 (-1)] ∧
    (TableOp.selectCol sNonEditable).1 =
      [TableOp.Command.selectCol 8 (-1)] := by
  have h := select_commands_unconditional sNonEditable rfl
  exact ⟨by simpa [sNonEditable, sAppend] using h.1,
    by simpa [sNonEditable, sAppend] using h.2⟩

/-- Claim C4 counterexample: a caller can supply a middleware list inside
floatingUIOptions; the object spread puts that list after the computed
one, so the middleware actually passed to the Position Solver is the
override and does not start with the flip rule. -/
theorem solverConfig_flip_not_always_first :
    ¬ (Block.solverConfig oOverride).2.head? = some Block.Rule.flip := by
  decide

/-- Claim C4 (amended): when the caller supplies no middleware list in
floatingUIOptions, the middleware passed to the Position Solver is
exactly flip first, then the offset rule exactly when getOffset is
supplied, then the caller-supplied extra rules appended last. -/
theorem solverConfig_flip_first_without_override (o : Block.ShowOptions)
    (h : o.floatingUIOptions.middleware = none) :
    (Block.solverConfig o).2 =
      [Block.Rule.flip] ++
        (if o.hasGetOffset then [Block.Rule.offset] else []) ++
        o.extraMiddleware := by
  rw [Block.solverConfig]
  simp only [h, Option.getD_none]
  cases hoff : o.hasGetOffset <;>
    simp [Block.builtMiddleware, hoff]

theorem solverConfig_flip_first_without_override_witness :
    (Block.solverConfig oPlain).2 =
      [Block.Rule.flip] ++ [Block.Rule.offset] ++
        [Block.Rule.extra 0, Block.Rule.extra 1] := by
  have h := solverConfig_flip_first_without_override oPlain rfl
  simpa [oPlain] using h

/-- Claim C6: when the solver computation of a show call rejects, the
error is reported to the diagnostic sink exactly once, the visibility flag
and the position style keep the values they had before the failure, and
only the one original solver call was issued (no retry). -/
theorem show_failure_leaves_state (s : Block.ProviderState) :
    (Block.showWith s Block.SolverResult.err).state.datasetShow =
      s.datasetShow ∧
    (Block.showWith s Block.SolverResult.err).state.stylePos = s.stylePos ∧
    (Block.showWith s Block.SolverResult.err).errorsReported = 1 ∧
    (Block.showWith s Block.SolverResult.err).solverCalls = 1 := by
  refine ⟨rfl, rfl, rfl, rfl⟩

/-- Claim C7: an in-flight position computation is not cancelled by a
subsequent hide: after show kicks off the computation, hide sets the
visibility flag to hidden, and when the computation later resolves
successfully its completion callback sets the flag to shown, so the final
state of the interleaving is visible. -/
theorem late_resolution_reshows_after_hide (s : Block.ProviderState)
    (x y : Int) :
    (Block.hide s).datasetShow = false ∧
    (Block.resolve (Block.hide s)
      (Block.SolverResult.ok x y)).1.datasetShow = true := by
  refine ⟨rfl, rfl⟩

theorem updateTrace_of_initialized (es : List Bool)
    (t : Block.ProviderState) (h : t.initialized = true) :
    Block.updateTrace es t = (t, 0) := by
  induction es with
  | nil => rfl
  | cons e rest ih =>
    simp [Block.updateTrace, Block.update, h, ih]

theorem updateTrace_count_le_one (es : List Bool) :
    ∀ t : Block.ProviderState, (Block.updateTrace es t).2 ≤ 1 := by
  induction es with
  | nil => intro t; simp [Block.updateTrace]
  | cons e rest ih =>
    intro t
    by_cases h : t.initialized = true
    · rw [updateTrace_of_initialized (e :: rest) t h]
      simp
    · rw [Bool.not_eq_true] at h
      cases e
      · simpa [Block.updateTrace, Block.update, h] using ih t
      · have hinit : (Block.update true t).initialized = true := by
          simp [Block.update, h]
        simp [Block.updateTrace, h,
          updateTrace_of_initialized rest _ hinit]

/-- Claim C8: initialization succeeds at most once per provider: over any
sequence of update calls from an uninitialized state at most one pass
performs a successful initialization; an update on an initialized state is
a no-op; a failed initialization attempt leaves the state unchanged
(swallowed), and the next update call with a mounted surface initializes
(retried). -/
theorem init_at_most_once (es : List Bool) (s t : Block.ProviderState)
    (e : Bool) (h : s.initialized = false) (ht : t.initialized = true) :
    (Block.updateTrace es s).2 ≤ 1 ∧
    Block.update e t = t ∧
    Block.update false s = s ∧
    (Block.update true (Block.update false s)).initialized = true := by
  refine ⟨updateTrace_count_le_one es s, ?_, ?_, ?_⟩
  · simp [Block.update, ht]
  · simp [Block.update, h]
  · simp [Block.update, h]

theorem init_at_most_once_witness :
    (Block.updateTrace [false, true, true, false]
      Block.initialState).2 ≤ 1 ∧
    Block.update true (Block.update true Block.initialState) =
      Block.update true Block.initialState ∧
    Block.update false Block.initialState = Block.initialState ∧
    (Block.update true
      (Block.update false Block.initialState)).initialized = true :=
  init_at_most_once [false, true, true, false] Block.initialState
    (Block.update true Block.initialState) true rfl (by decide)

/-- Claim C9: destroy is idempotent — a second call yields the same state
as the first — and calling it without any prior successful update (the
constructor state, where the service binding was never established) is
total and leaves no bound subscription. -/
theorem destroy_idempotent_and_safe (s : Block.ProviderState) :
    Block.destroy (Block.destroy s) = Block.destroy s ∧
    (Block.destroy Block.initialState).bound = false ∧
    (Block.destroy Block.initialState).hasService = false ∧
    Block.destroy Block.initialState =
      { Block.initialState with attached := false } := by
  refine ⟨?_, by decide, by decide, by decide⟩
  cases hs : s.hasService <;>
    simp [Block.destroy, Block.unBindService, Block.removeEventService, hs]
